import Mathlib

/-!
Verification development for the banking HTTP client
(`banking_client.py`): a shallow embedding of its data model and of the
five public operations (`authenticate`, `validate_account`,
`transfer_funds`, `get_accounts`, `get_account_balance`) plus `close`,
together with theorems settling the specification's claims.

Modelling conventions:
* JSON values (and Python objects flowing out of `response.json()`) are
  the inductive `Json`; Python `None` is `Json.null`.
* Python numbers are rationals (`ℚ`); every numeric literal appearing in
  the code and spec (amounts, defaults like `0.0`) is exact in `ℚ`, and
  the only numeric operation performed is comparison with `0`.
* Each operation is a pure function of the client state and of the
  outcome the HTTP session produces for the single `session.post`/
  `session.get` it performs (`HttpOutcome`).  The operation returns an
  `OpResult`: the Python return value or the uncaught exception that
  escapes the method (`Except Exn`), the client state after the call,
  and the list of session-level HTTP requests issued (empty when the
  call short-circuits before the network).
* Exceptions of the `requests.exceptions.RequestException` family
  (transport failures, `HTTPError` from `raise_for_status`, JSON decode
  failures) are caught by the `except` clauses in the source and are
  resolved inline to the operation's no-result value; `AttributeError`
  and `TypeError` are caught by no clause and appear as `.error` results.
-/

set_option autoImplicit false

namespace Banking

/-- JSON values / dynamically-typed Python values. `null` doubles as
Python `None` (this is what `response.json()` can return and what
`dict.get` returns for a missing key). -/
inductive Json where
  | null : Json
  | bool : Bool → Json
  | num  : ℚ → Json
  | str  : String → Json
  | arr  : List Json → Json
  | obj  : List (String × Json) → Json

/-- First-match lookup in a JSON object's field list.  Objects produced
by `json.loads` have pairwise-distinct keys, so first-match agrees with
Python dict lookup. -/
def jlookup : List (String × Json) → String → Option Json
  | [], _ => none
  | (k, v) :: rest, key => if k = key then some v else jlookup rest key

/-- Python truthiness (`if self.jwt_token:`, `if not self.from_account`). -/
def truthy : Json → Bool
  | .null => false
  | .bool b => b
  | .num q => decide (q ≠ 0)
  | .str s => decide (s ≠ "")
  | .arr xs => !xs.isEmpty
  | .obj fs => !fs.isEmpty

/-- String conversion used by the f-string `f"Bearer {self.jwt_token}"`.
In this client the token is only ever `None` or the string taken from
the auth response body; the rendering of compound values is abstracted
(no claim depends on it). -/
def pyStr : Json → String
  | .null => "None"
  | .bool true => "True"
  | .bool false => "False"
  | .num q => toString q
  | .str s => s
  | .arr _ => "<list>"
  | .obj _ => "<dict>"

/-- Python `len` as used on `response.json()` results: defined for
lists, dicts and strings, raises `TypeError` otherwise. -/
def pyLen : Json → Option Nat
  | .arr xs => some xs.length
  | .obj fs => some fs.length
  | .str s => some s.length
  | _ => none

/-- The exceptions the operations can raise or catch. -/
inductive Exn where
  /-- `requests.exceptions.RequestException` (connection error, timeout,
  retry budget exhausted, ...). -/
  | requestException : Exn
  /-- `requests.exceptions.HTTPError` raised by `raise_for_status`. -/
  | httpError : Nat → Exn
  /-- `requests.exceptions.JSONDecodeError` from `response.json()`. -/
  | jsonDecodeError : Exn
  /-- `ValueError` from `TransferRequest.__post_init__`. -/
  | valueError : String → Exn
  /-- `AttributeError` (e.g. `.get` called on a non-dict). -/
  | attributeError : Exn
  /-- `TypeError` (e.g. `len` of a number). -/
  | typeError : Exn

/-- `HTTPError` and `JSONDecodeError` are subclasses of
`RequestException`; `ValueError`, `AttributeError`, `TypeError` are not. -/
def Exn.isRequestException : Exn → Bool
  | .requestException => true
  | .httpError _ => true
  | .jsonDecodeError => true
  | _ => false

/-- Body of an HTTP response: either not valid JSON (so that
`response.json()` raises `JSONDecodeError`) or a parsed JSON value. -/
inductive Body where
  | invalid : Body
  | json : Json → Body

/-- What the session call (`session.post` / `session.get`) produces for
the operation: a raised `RequestException` (transport failure or retry
exhaustion) or a delivered response with status code and body. -/
inductive HttpOutcome where
  | exn : HttpOutcome
  | response : Nat → Body → HttpOutcome

/-- `response.raise_for_status()` raises `HTTPError` exactly for status
codes in 400–599. -/
def raisesForStatus (code : Nat) : Bool :=
  decide (400 ≤ code) && decide (code < 600)

/-- `BankingClientConfig`. -/
structure BankingClientConfig where
  base_url : String
  timeout : Nat
  max_retries : Nat

/-- Python's `s.rstrip('/')`: drop all trailing `'/'` characters. -/
def rstripSlashes (s : String) : String :=
  ⟨(s.data.reverse.dropWhile (· = '/')).reverse⟩

/-- `BankingClientConfig.__init__`: strips trailing slashes from the
base URL (`base_url.rstrip('/')`). -/
def mkConfig (base_url : String) (timeout : Nat) (max_retries : Nat) :
    BankingClientConfig :=
  { base_url := rstripSlashes base_url,
    timeout := timeout,
    max_retries := max_retries }

/-- The default configuration (`BankingClientConfig()`). -/
def defaultConfig : BankingClientConfig := mkConfig "http://localhost:8123" 30 3

/-- The mutable state of a `BankingClient`: the stored JWT token
(`self.jwt_token`, initially `None` = `Json.null`) and whether
`session.close()` has been called (the Python session object keeps no
such flag — no operation consults it — but the model records it to
reason about behaviour after `close`). -/
structure ClientState where
  jwt_token : Json
  sessionClosed : Bool

/-- State of a freshly constructed client (`BankingClient.__init__`). -/
def initialState : ClientState := { jwt_token := .null, sessionClosed := false }

/-- A session-level HTTP request as built by an operation. -/
structure HttpRequest where
  method : String
  url : String
  headers : List (String × String)
  body : Option Json

/-- Result of running one operation: the Python return value or the
uncaught exception (`res`), the client state after the call, and the
session-level requests issued. -/
structure OpResult (α : Type) where
  res : Except Exn α
  state : ClientState
  sent : List HttpRequest

/-- Whether an operation terminated without an uncaught exception
(returning its typed value or its no-result signal). -/
def resOk {α : Type} : Except Exn α → Bool
  | .ok _ => true
  | .error _ => false

/-- An exchange outcome after which no uncaught exception can arise in
any operation: a raised-and-caught transport exception, an error status
(400–599) turned into a caught `HTTPError`, an unparsable body (caught
`JSONDecodeError`), or a response whose JSON body is an object. -/
def safeOutcome (out : HttpOutcome) : Prop :=
  out = .exn ∨ ∃ code body, out = .response code body ∧
    (raisesForStatus code = true ∨ body = .invalid ∨
      ∃ fs, body = .json (.obj fs))

/-- `BankingClient._get_headers`: `Content-Type` always, and
`Authorization: Bearer <token>` iff the stored token is truthy. -/
def get_headers (st : ClientState) : List (String × String) :=
  [("Content-Type", "application/json")] ++
    (if truthy st.jwt_token then
      [("Authorization", "Bearer " ++ pyStr st.jwt_token)]
    else [])

/-- `BankingClient.close`: closes the pooled session.  No closed flag is
set on the client and no operation checks one; the model only records
that the pool was released. -/
def close (st : ClientState) : ClientState := { st with sessionClosed := true }

/-- `BankingClient.authenticate`.  POSTs `{username, password}` to
`/authToken`; on a delivered response `raise_for_status` turns a
400–599 status into a caught `HTTPError`; otherwise
`self.jwt_token = data.get('token')` runs (raising an uncaught
`AttributeError` when the body is not a JSON object) and the result is
the truthiness of the stored token.  All `RequestException`s are caught
and yield `False` with the state unchanged. -/
def authenticate (cfg : BankingClientConfig) (st : ClientState)
    (username password : String) (out : HttpOutcome) : OpResult Bool :=
  let url := cfg.base_url ++ "/authToken"
  let payload : Json := .obj [("username", .str username), ("password", .str password)]
  let req : HttpRequest :=
    { method := "POST", url := url,
      headers := [("Content-Type", "application/json")], body := some payload }
  match out with
  | .exn => { res := .ok false, state := st, sent := [req] }
  | .response code body =>
    if raisesForStatus code then
      { res := .ok false, state := st, sent := [req] }
    else
      match body with
      | .invalid => { res := .ok false, state := st, sent := [req] }
      | .json (.obj fields) =>
        let tok := (jlookup fields "token").getD .null
        { res := .ok (truthy tok), state := { st with jwt_token := tok }, sent := [req] }
      | .json _ =>
        { res := .error .attributeError, state := st, sent := [req] }

/-- `BankingClient.validate_account`.  GETs
`/accounts/validate/{account_id}` with the authenticated headers and
returns `data.get('valid', False)`; every `RequestException` yields
`False`.  (The Python return value is whatever the body's `valid` field
holds, so the result type is `Json`.) -/
def validate_account (cfg : BankingClientConfig) (st : ClientState)
    (account_id : String) (out : HttpOutcome) : OpResult Json :=
  let url := cfg.base_url ++ "/accounts/validate/" ++ account_id
  let req : HttpRequest :=
    { method := "GET", url := url, headers := get_headers st, body := none }
  match out with
  | .exn => { res := .ok (.bool false), state := st, sent := [req] }
  | .response code body =>
    if raisesForStatus code then
      { res := .ok (.bool false), state := st, sent := [req] }
    else
      match body with
      | .invalid => { res := .ok (.bool false), state := st, sent := [req] }
      | .json (.obj fields) =>
        { res := .ok ((jlookup fields "valid").getD (.bool false)),
          state := st, sent := [req] }
      | .json _ =>
        { res := .error .attributeError, state := st, sent := [req] }

/-- `TransferResponse`.  The fields are populated with `data.get(...)`
defaults, so (Python being dynamically typed) each holds an arbitrary
JSON value. -/
structure TransferResponse where
  transaction_id : Json
  status : Json
  message : Json
  from_account : Json
  to_account : Json
  amount : Json

/-- `BankingClient.transfer_funds`.  `TransferRequest.__post_init__`
validation runs first (amount ≤ 0 checked before empty accounts); its
`ValueError` is caught and returns `None` before any request is built.
Otherwise POSTs `{fromAccount, toAccount, amount}` to `/transfer` with
the authenticated headers iff `use_auth`, and maps a delivered non-error
response body through `data.get` with defaults.  `ValueError`,
`HTTPError` and `RequestException` are caught (→ `None`);
`AttributeError` on a non-dict body is not. -/
def transfer_funds (cfg : BankingClientConfig) (st : ClientState)
    (from_account to_account : String) (amount : ℚ) (use_auth : Bool)
    (out : HttpOutcome) : OpResult (Option TransferResponse) :=
  if amount ≤ 0 then
    { res := .ok none, state := st, sent := [] }
  else if from_account = "" ∨ to_account = "" then
    { res := .ok none, state := st, sent := [] }
  else
    let url := cfg.base_url ++ "/transfer"
    let payload : Json := .obj
      [("fromAccount", .str from_account), ("toAccount", .str to_account),
       ("amount", .num amount)]
    let headers :=
      if use_auth then get_headers st else [("Content-Type", "application/json")]
    let req : HttpRequest :=
      { method := "POST", url := url, headers := headers, body := some payload }
    match out with
    | .exn => { res := .ok none, state := st, sent := [req] }
    | .response code body =>
      if raisesForStatus code then
        { res := .ok none, state := st, sent := [req] }
      else
        match body with
        | .invalid => { res := .ok none, state := st, sent := [req] }
        | .json (.obj fields) =>
          { res := .ok (some
              { transaction_id := (jlookup fields "transactionId").getD (.str ""),
                status := (jlookup fields "status").getD (.str ""),
                message := (jlookup fields "message").getD (.str ""),
                from_account := (jlookup fields "fromAccount").getD (.str ""),
                to_account := (jlookup fields "toAccount").getD (.str ""),
                amount := (jlookup fields "amount").getD (.num 0) }),
            state := st, sent := [req] }
        | .json _ =>
          { res := .error .attributeError, state := st, sent := [req] }

/-- `BankingClient.get_accounts`.  GETs `/accounts`; headers are the
authenticated headers iff `use_auth`, otherwise the empty header set.
The body is returned as-is after `len(accounts)` is evaluated for the
log line — an uncaught `TypeError` when the body has no length. -/
def get_accounts (cfg : BankingClientConfig) (st : ClientState)
    (use_auth : Bool) (out : HttpOutcome) : OpResult (Option Json) :=
  let url := cfg.base_url ++ "/accounts"
  let headers := if use_auth then get_headers st else []
  let req : HttpRequest :=
    { method := "GET", url := url, headers := headers, body := none }
  match out with
  | .exn => { res := .ok none, state := st, sent := [req] }
  | .response code body =>
    if raisesForStatus code then
      { res := .ok none, state := st, sent := [req] }
    else
      match body with
      | .invalid => { res := .ok none, state := st, sent := [req] }
      | .json data =>
        match pyLen data with
        | some _ => { res := .ok (some data), state := st, sent := [req] }
        | none => { res := .error .typeError, state := st, sent := [req] }

/-- `BankingClient.get_account_balance`.  GETs
`/accounts/balance/{account_id}`; headers as in `get_accounts`.  The log
line evaluates `balance_data.get('balance', 'N/A')` — an uncaught
`AttributeError` when the body is not a JSON object — and the body is
returned as-is. -/
def get_account_balance (cfg : BankingClientConfig) (st : ClientState)
    (account_id : String) (use_auth : Bool) (out : HttpOutcome) :
    OpResult (Option Json) :=
  let url := cfg.base_url ++ "/accounts/balance/" ++ account_id
  let headers := if use_auth then get_headers st else []
  let req : HttpRequest :=
    { method := "GET", url := url, headers := headers, body := none }
  match out with
  | .exn => { res := .ok none, state := st, sent := [req] }
  | .response code body =>
    if raisesForStatus code then
      { res := .ok none, state := st, sent := [req] }
    else
      match body with
      | .invalid => { res := .ok none, state := st, sent := [req] }
      | .json (.obj fields) =>
        { res := .ok (some (.obj fields)), state := st, sent := [req] }
      | .json _ =>
        { res := .error .attributeError, state := st, sent := [req] }

/-- Status codes configured in `BankingClient._create_session`
(`status_forcelist=[429, 500, 502, 503, 504]`). -/
def status_forcelist : List Nat := [429, 500, 502, 503, 504]

/-- Methods configured in `BankingClient._create_session`
(`allowed_methods=["GET", "POST"]`). -/
def allowed_methods : List String := ["GET", "POST"]

/-- Outcome of one low-level connection attempt inside the session. -/
inductive AttemptOutcome where
  | netFail : AttemptOutcome
  | status : Nat → AttemptOutcome

/-- Final result of the transport's retry loop: `noResult` models the
`RetryError`/`MaxRetryError` the operations catch as a
`RequestException`; `response c` is a response delivered to the caller. -/
inductive RetryResult where
  | noResult : RetryResult
  | response : Nat → RetryResult
  deriving DecidableEq

/-- An attempt outcome is retried iff the method is in `allowed_methods`
and the outcome is a network-level failure or a status in
`status_forcelist`. -/
def retriable (method : String) : AttemptOutcome → Bool
  | .netFail => decide (method ∈ allowed_methods)
  | .status c => decide (method ∈ allowed_methods) && decide (c ∈ status_forcelist)

/-- Result delivered when the retry loop stops at a non-retried
outcome: a network failure surfaces as a raised (caught) exception, a
status is delivered as a response. -/
def finalResult : AttemptOutcome → RetryResult
  | .netFail => .noResult
  | .status c => .response c

/-- Modelled from the spec: the bounded retry loop the transport
executes (the `urllib3 Retry` object configured in
`BankingClient._create_session` with `total = max_retries` and the
`status_forcelist` / `allowed_methods` above — library code, not part of
this repository; the spec's §4.1/§8 describe its behaviour).  Attempt
`idx` receives outcome `script idx`; a retriable outcome consumes one
unit of the retry budget (yielding `noResult` once the budget is
exhausted), a non-retriable outcome ends the loop with its final
result.  Returns the result and the total number of attempts made. -/
def retryExec (method : String) (script : Nat → AttemptOutcome) :
    Nat → Nat → RetryResult × Nat
  | 0, idx =>
    if retriable method (script idx) then (.noResult, idx + 1)
    else (finalResult (script idx), idx + 1)
  | b + 1, idx =>
    if retriable method (script idx) then retryExec method script b (idx + 1)
    else (finalResult (script idx), idx + 1)

/-- Run one session call through the retry loop with a budget of
`maxRetries` retries after the initial attempt. -/
def runWithRetry (maxRetries : Nat) (method : String)
    (script : Nat → AttemptOutcome) : RetryResult × Nat :=
  retryExec method script maxRetries 0

/-- Helper: `validate_account` always issues exactly one GET request
carrying the authenticated headers, whatever the outcome. -/
theorem validate_account_sent (cfg : BankingClientConfig) (st : ClientState)
    (acct : String) (out : HttpOutcome) :
    (validate_account cfg st acct out).sent =
      [{ method := "GET", url := cfg.base_url ++ "/accounts/validate/" ++ acct,
         headers := get_headers st, body := none }] := by
  cases out with
  | exn => rfl
  | response code body =>
    by_cases h : raisesForStatus code
    · simp [validate_account, h]
    · cases body with
      | invalid => simp [validate_account, h]
      | json j => cases j <;> simp [validate_account, h]

/-- Helper: the request `get_accounts` issues carries the authenticated
headers iff `use_auth`, and the empty header set otherwise. -/
theorem get_accounts_sent (cfg : BankingClientConfig) (st : ClientState)
    (ua : Bool) (out : HttpOutcome) :
    (get_accounts cfg st ua out).sent =
      [{ method := "GET", url := cfg.base_url ++ "/accounts",
         headers := if ua then get_headers st else [], body := none }] := by
  cases out with
  | exn => rfl
  | response code body =>
    by_cases h : raisesForStatus code
    · simp [get_accounts, h]
    · cases body with
      | invalid => simp [get_accounts, h]
      | json j => cases j <;> simp [get_accounts, h, pyLen]

/-- Helper: same as `get_accounts_sent` for `get_account_balance`. -/
theorem get_account_balance_sent (cfg : BankingClientConfig) (st : ClientState)
    (aid : String) (ua : Bool) (out : HttpOutcome) :
    (get_account_balance cfg st aid ua out).sent =
      [{ method := "GET", url := cfg.base_url ++ "/accounts/balance/" ++ aid,
         headers := if ua then get_headers st else [], body := none }] := by
  cases out with
  | exn => rfl
  | response code body =>
    by_cases h : raisesForStatus code
    · simp [get_account_balance, h]
    · cases body with
      | invalid => simp [get_account_balance, h]
      | json j => cases j <;> simp [get_account_balance, h]

/-- Helper: `transfer_funds` sends no request (pre-validation failure)
or exactly one POST whose headers are the authenticated headers iff
`use_auth` and plain `Content-Type` otherwise. -/
theorem transfer_funds_sent (cfg : BankingClientConfig) (st : ClientState)
    (fa ta : String) (amt : ℚ) (ua : Bool) (out : HttpOutcome) :
    (transfer_funds cfg st fa ta amt ua out).sent = [] ∨
    (transfer_funds cfg st fa ta amt ua out).sent =
      [{ method := "POST", url := cfg.base_url ++ "/transfer",
         headers := if ua then get_headers st else [("Content-Type", "application/json")],
         body := some (.obj [("fromAccount", .str fa), ("toAccount", .str ta),
                             ("amount", .num amt)]) }] := by
  by_cases h0 : amt ≤ 0
  · left; simp [transfer_funds, h0]
  · by_cases h1 : fa = "" ∨ ta = ""
    · left; simp [transfer_funds, h0, h1]
    · right
      cases out with
      | exn => simp [transfer_funds, h0, h1]
      | response code body =>
        by_cases h : raisesForStatus code
        · simp [transfer_funds, h0, h1, h]
        · cases body with
          | invalid => simp [transfer_funds, h0, h1, h]
          | json j => cases j <;> simp [transfer_funds, h0, h1, h]

/-- Helper: the value `transfer_funds` returns does not depend on the
client state (only the headers of the sent request can). -/
theorem transfer_funds_res_state_irrel (cfg : BankingClientConfig)
    (st st' : ClientState) (fa ta : String) (amt : ℚ) (ua : Bool)
    (out : HttpOutcome) :
    (transfer_funds cfg st fa ta amt ua out).res =
      (transfer_funds cfg st' fa ta amt ua out).res := by
  by_cases h0 : amt ≤ 0
  · simp [transfer_funds, h0]
  · by_cases h1 : fa = "" ∨ ta = ""
    · simp [transfer_funds, h0, h1]
    · cases out with
      | exn => simp [transfer_funds, h0, h1]
      | response code body =>
        by_cases h : raisesForStatus code
        · simp [transfer_funds, h0, h1, h]
        · cases body with
          | invalid => simp [transfer_funds, h0, h1, h]
          | json j => cases j <;> simp [transfer_funds, h0, h1, h]

/-- Helper: the value `get_accounts` returns does not depend on the
client state. -/
theorem get_accounts_res_state_irrel (cfg : BankingClientConfig)
    (st st' : ClientState) (ua : Bool) (out : HttpOutcome) :
    (get_accounts cfg st ua out).res = (get_accounts cfg st' ua out).res := by
  cases out with
  | exn => rfl
  | response code body =>
    by_cases h : raisesForStatus code
    · simp [get_accounts, h]
    · cases body with
      | invalid => simp [get_accounts, h]
      | json j => cases j <;> simp [get_accounts, h, pyLen]

/-- Helper: the value `get_account_balance` returns does not depend on
the client state. -/
theorem get_account_balance_res_state_irrel (cfg : BankingClientConfig)
    (st st' : ClientState) (aid : String) (ua : Bool) (out : HttpOutcome) :
    (get_account_balance cfg st aid ua out).res =
      (get_account_balance cfg st' aid ua out).res := by
  cases out with
  | exn => rfl
  | response code body =>
    by_cases h : raisesForStatus code
    · simp [get_account_balance, h]
    · cases body with
      | invalid => simp [get_account_balance, h]
      | json j => cases j <;> simp [get_account_balance, h]

/-- Helper: with `use_auth = false` the requests `transfer_funds` sends
do not depend on the client state. -/
theorem transfer_funds_sent_state_irrel_no_auth (cfg : BankingClientConfig)
    (st st' : ClientState) (fa ta : String) (amt : ℚ) (out : HttpOutcome) :
    (transfer_funds cfg st fa ta amt false out).sent =
      (transfer_funds cfg st' fa ta amt false out).sent := by
  by_cases h0 : amt ≤ 0
  · simp [transfer_funds, h0]
  · by_cases h1 : fa = "" ∨ ta = ""
    · simp [transfer_funds, h0, h1]
    · cases out with
      | exn => simp [transfer_funds, h0, h1]
      | response code body =>
        by_cases h : raisesForStatus code
        · simp [transfer_funds, h0, h1, h]
        · cases body with
          | invalid => simp [transfer_funds, h0, h1, h]
          | json j => cases j <;> simp [transfer_funds, h0, h1, h]

/-- Helper: the value `validate_account` returns does not depend on the
client state. -/
theorem validate_account_res_state_irrel (cfg : BankingClientConfig)
    (st st' : ClientState) (acct : String) (out : HttpOutcome) :
    (validate_account cfg st acct out).res =
      (validate_account cfg st' acct out).res := by
  cases out with
  | exn => rfl
  | response code body =>
    by_cases h : raisesForStatus code
    · simp [validate_account, h]
    · cases body with
      | invalid => simp [validate_account, h]
      | json j => cases j <;> simp [validate_account, h]

/-- Helper: two states building identical headers make `transfer_funds`
send identical requests. -/
theorem transfer_funds_sent_congr (cfg : BankingClientConfig)
    (st st' : ClientState) (fa ta : String) (amt : ℚ) (ua : Bool)
    (out : HttpOutcome) (hh : get_headers st = get_headers st') :
    (transfer_funds cfg st fa ta amt ua out).sent =
      (transfer_funds cfg st' fa ta amt ua out).sent := by
  by_cases h0 : amt ≤ 0
  · simp [transfer_funds, h0]
  · by_cases h1 : fa = "" ∨ ta = ""
    · simp [transfer_funds, h0, h1]
    · cases out with
      | exn => simp [transfer_funds, h0, h1, hh]
      | response code body =>
        by_cases h : raisesForStatus code
        · simp [transfer_funds, h0, h1, h, hh]
        · cases body with
          | invalid => simp [transfer_funds, h0, h1, h, hh]
          | json j => cases j <;> simp [transfer_funds, h0, h1, h, hh]

/-- C4: a `transfer_funds` call with a non-positive amount or an empty
account identifier fails synchronously before any network interaction:
the result is the no-result value `none`, the client state is unchanged,
and zero HTTP requests are sent (hence no retry is counted). -/
theorem c4_transfer_prevalidation_short_circuits (cfg : BankingClientConfig)
    (st : ClientState) (fa ta : String) (amt : ℚ) (ua : Bool) (out : HttpOutcome)
    (h : amt ≤ 0 ∨ fa = "" ∨ ta = "") :
    transfer_funds cfg st fa ta amt ua out =
      { res := .ok none, state := st, sent := [] } := by
  rcases h with h | h | h
  · simp [transfer_funds, h]
  · by_cases ha : amt ≤ 0 <;> simp [transfer_funds, ha, h]
  · by_cases ha : amt ≤ 0 <;> simp [transfer_funds, ha, h]

/-- Witness for C4: a concrete negative-amount transfer returns `none`
with no request sent. -/
theorem c4_transfer_prevalidation_short_circuits_witness :
    transfer_funds defaultConfig initialState "ACC1000" "ACC1001" (-50) false
        (.response 200 (.json (.obj []))) =
      { res := .ok none, state := initialState, sent := [] } :=
  c4_transfer_prevalidation_short_circuits defaultConfig initialState
    "ACC1000" "ACC1001" (-50) false (.response 200 (.json (.obj [])))
    (Or.inl (by norm_num))

/-- C6: after `authenticate` receives a 200 response with JSON body
`{"token": "abc"}`, it returns success and stores the token; every
subsequent authenticated call — every `validate_account` call, and
every `transfer_funds` / `get_accounts` / `get_account_balance` call
with `use_auth = true` — sends `Authorization: Bearer abc` together
with `Content-Type: application/json`; and in general the built headers
contain an `Authorization` entry iff a token is currently set (truthy). -/
theorem c6_auth_success_and_bearer_header (cfg : BankingClientConfig)
    (st : ClientState) (user pw acct aid fa ta : String) (amt : ℚ)
    (out : HttpOutcome) :
    authenticate cfg st user pw
        (.response 200 (.json (.obj [("token", .str "abc")]))) =
      { res := .ok true, state := { st with jwt_token := .str "abc" },
        sent := [{ method := "POST", url := cfg.base_url ++ "/authToken",
                   headers := [("Content-Type", "application/json")],
                   body := some (.obj [("username", .str user),
                                       ("password", .str pw)]) }] } ∧
    get_headers { st with jwt_token := .str "abc" } =
      [("Content-Type", "application/json"), ("Authorization", "Bearer abc")] ∧
    ((validate_account cfg { st with jwt_token := .str "abc" } acct out).sent.all
      fun r => decide (r.headers =
        [("Content-Type", "application/json"), ("Authorization", "Bearer abc")])) = true ∧
    ((transfer_funds cfg { st with jwt_token := .str "abc" } fa ta amt true out).sent.all
      fun r => decide (r.headers =
        [("Content-Type", "application/json"), ("Authorization", "Bearer abc")])) = true ∧
    ((get_accounts cfg { st with jwt_token := .str "abc" } true out).sent.all
      fun r => decide (r.headers =
        [("Content-Type", "application/json"), ("Authorization", "Bearer abc")])) = true ∧
    ((get_account_balance cfg { st with jwt_token := .str "abc" } aid true out).sent.all
      fun r => decide (r.headers =
        [("Content-Type", "application/json"), ("Authorization", "Bearer abc")])) = true ∧
    (∀ s : ClientState,
      ((get_headers s).any fun q => decide (q.1 = "Authorization")) = truthy s.jwt_token) := by
  have hH : get_headers { st with jwt_token := .str "abc" } =
      [("Content-Type", "application/json"), ("Authorization", "Bearer abc")] := rfl
  refine ⟨rfl, hH, ?_, ?_, ?_, ?_, ?_⟩
  · rw [validate_account_sent, List.all_eq_true]
    intro r hr
    simp only [List.mem_singleton] at hr
    subst hr
    simp [hH]
  · rcases transfer_funds_sent cfg { st with jwt_token := .str "abc" } fa ta amt true out
      with h | h <;> rw [h, List.all_eq_true] <;> intro r hr <;>
      simp only [List.mem_singleton, List.not_mem_nil] at hr
    subst hr
    simp [hH]
  · rw [get_accounts_sent, List.all_eq_true]
    intro r hr
    simp only [List.mem_singleton] at hr
    subst hr
    simp [hH]
  · rw [get_account_balance_sent, List.all_eq_true]
    intro r hr
    simp only [List.mem_singleton] at hr
    subst hr
    simp [hH]
  · intro s
    cases hT : truthy s.jwt_token <;> simp [get_headers, hT]

/-- C7: with `use_auth = false`, the requests sent by `transfer_funds`,
`get_accounts` and `get_account_balance` never carry an `Authorization`
header, and the returned value and sent requests are identical for any
two values of the stored token: the token does not flow into the
request. -/
theorem c7_use_auth_false_suppresses_token (cfg : BankingClientConfig)
    (st : ClientState) (t1 t2 : Json) (fa ta aid : String) (amt : ℚ)
    (out : HttpOutcome) :
    ((transfer_funds cfg { st with jwt_token := t1 } fa ta amt false out).sent.all
      fun r => r.headers.all fun q => decide (q.1 ≠ "Authorization")) = true ∧
    ((get_accounts cfg { st with jwt_token := t1 } false out).sent.all
      fun r => r.headers.all fun q => decide (q.1 ≠ "Authorization")) = true ∧
    ((get_account_balance cfg { st with jwt_token := t1 } aid false out).sent.all
      fun r => r.headers.all fun q => decide (q.1 ≠ "Authorization")) = true ∧
    (transfer_funds cfg { st with jwt_token := t1 } fa ta amt false out).res =
      (transfer_funds cfg { st with jwt_token := t2 } fa ta amt false out).res ∧
    (transfer_funds cfg { st with jwt_token := t1 } fa ta amt false out).sent =
      (transfer_funds cfg { st with jwt_token := t2 } fa ta amt false out).sent ∧
    (get_accounts cfg { st with jwt_token := t1 } false out).res =
      (get_accounts cfg { st with jwt_token := t2 } false out).res ∧
    (get_accounts cfg { st with jwt_token := t1 } false out).sent =
      (get_accounts cfg { st with jwt_token := t2 } false out).sent ∧
    (get_account_balance cfg { st with jwt_token := t1 } aid false out).res =
      (get_account_balance cfg { st with jwt_token := t2 } aid false out).res ∧
    (get_account_balance cfg { st with jwt_token := t1 } aid false out).sent =
      (get_account_balance cfg { st with jwt_token := t2 } aid false out).sent := by
  refine ⟨?_, ?_, ?_, transfer_funds_res_state_irrel _ _ _ _ _ _ _ _, ?_,
    get_accounts_res_state_irrel _ _ _ _ _, ?_,
    get_account_balance_res_state_irrel _ _ _ _ _ _, ?_⟩
  · rcases transfer_funds_sent cfg { st with jwt_token := t1 } fa ta amt false out
      with h | h <;> rw [h, List.all_eq_true] <;> intro r hr <;>
      simp only [List.mem_singleton, List.not_mem_nil] at hr
    subst hr
    simp
  · rw [get_accounts_sent, List.all_eq_true]
    intro r hr
    simp only [List.mem_singleton] at hr
    subst hr
    simp
  · rw [get_account_balance_sent, List.all_eq_true]
    intro r hr
    simp only [List.mem_singleton] at hr
    subst hr
    simp
  · exact transfer_funds_sent_state_irrel_no_auth _ _ _ _ _ _ _
  · rw [get_accounts_sent, get_accounts_sent]
    simp
  · rw [get_account_balance_sent, get_account_balance_sent]
    simp

/-- C9: when the stored token equals the empty string, the built
authenticated headers contain `Content-Type: application/json` but no
`Authorization` header, and every operation returns the same value and
sends the same requests as it would with an unset (`None`) token. -/
theorem c9_empty_string_token_behaves_unset (cfg : BankingClientConfig)
    (st : ClientState) (acct aid fa ta : String) (amt : ℚ) (ua : Bool)
    (out : HttpOutcome) (h : st.jwt_token = .str "") :
    get_headers st = [("Content-Type", "application/json")] ∧
    (validate_account cfg st acct out).res =
      (validate_account cfg { st with jwt_token := .null } acct out).res ∧
    (validate_account cfg st acct out).sent =
      (validate_account cfg { st with jwt_token := .null } acct out).sent ∧
    (transfer_funds cfg st fa ta amt ua out).res =
      (transfer_funds cfg { st with jwt_token := .null } fa ta amt ua out).res ∧
    (transfer_funds cfg st fa ta amt ua out).sent =
      (transfer_funds cfg { st with jwt_token := .null } fa ta amt ua out).sent ∧
    (get_accounts cfg st ua out).res =
      (get_accounts cfg { st with jwt_token := .null } ua out).res ∧
    (get_accounts cfg st ua out).sent =
      (get_accounts cfg { st with jwt_token := .null } ua out).sent ∧
    (get_account_balance cfg st aid ua out).res =
      (get_account_balance cfg { st with jwt_token := .null } aid ua out).res ∧
    (get_account_balance cfg st aid ua out).sent =
      (get_account_balance cfg { st with jwt_token := .null } aid ua out).sent := by
  have hh : get_headers st = get_headers { st with jwt_token := .null } := by
    simp [get_headers, h, truthy]
  refine ⟨by simp [get_headers, h, truthy],
    validate_account_res_state_irrel _ _ _ _ _, ?_,
    transfer_funds_res_state_irrel _ _ _ _ _ _ _ _,
    transfer_funds_sent_congr _ _ _ _ _ _ _ _ hh,
    get_accounts_res_state_irrel _ _ _ _ _, ?_,
    get_account_balance_res_state_irrel _ _ _ _ _ _, ?_⟩
  · rw [validate_account_sent, validate_account_sent, hh]
  · rw [get_accounts_sent, get_accounts_sent, hh]
  · rw [get_account_balance_sent, get_account_balance_sent, hh]

/-- Witness for C9 at a concrete client state with an empty-string
token. -/
theorem c9_empty_string_token_behaves_unset_witness :
    get_headers { jwt_token := .str "", sessionClosed := false } =
      [("Content-Type", "application/json")] :=
  (c9_empty_string_token_behaves_unset defaultConfig
    { jwt_token := .str "", sessionClosed := false } "ACC1" "ACC2" "ACC3"
    "ACC4" 5 true (.response 200 (.json (.obj []))) rfl).1

/-- C8: a 2xx transfer response whose JSON body is an object maps to a
`TransferResponse` whose six fields carry exactly the body's values for
`transactionId`, `status`, `message`, `fromAccount`, `toAccount` and
`amount` when present, and the defaults (`""` for the strings, `0.0`
for the amount) when absent — expressed by `Option.getD` over the field
lookup.  (The hypotheses make the pre-network validation pass, as it
must for a transfer response to exist.) -/
theorem c8_transfer_response_field_mapping (cfg : BankingClientConfig)
    (st : ClientState) (fa ta : String) (amt : ℚ) (ua : Bool) (code : Nat)
    (fields : List (String × Json)) (hfa : fa ≠ "") (hta : ta ≠ "")
    (hamt : 0 < amt) (hcode : 200 ≤ code ∧ code < 300) :
    (transfer_funds cfg st fa ta amt ua
        (.response code (.json (.obj fields)))).res =
      .ok (some
        { transaction_id := (jlookup fields "transactionId").getD (.str ""),
          status := (jlookup fields "status").getD (.str ""),
          message := (jlookup fields "message").getD (.str ""),
          from_account := (jlookup fields "fromAccount").getD (.str ""),
          to_account := (jlookup fields "toAccount").getD (.str ""),
          amount := (jlookup fields "amount").getD (.num 0) }) := by
  have h0 : ¬ amt ≤ 0 := not_le.mpr hamt
  have h1 : ¬ (fa = "" ∨ ta = "") := by simp [hfa, hta]
  have hrs : ¬ (raisesForStatus code = true) := by
    have : ¬ 400 ≤ code := by omega
    simp [raisesForStatus, this]
  simp [transfer_funds, h0, h1, hrs]

/-- Witness for C8: the spec's round-trip example body maps to the
`TransferResponse` with identical field values. -/
theorem c8_transfer_response_field_mapping_witness :
    (transfer_funds defaultConfig initialState "A" "B" (21/2) false
        (.response 200 (.json (.obj
          [("transactionId", .str "t1"), ("status", .str "SUCCESS"),
           ("message", .str "ok"), ("fromAccount", .str "A"),
           ("toAccount", .str "B"), ("amount", .num (21/2))])))).res =
      .ok (some
        { transaction_id := .str "t1", status := .str "SUCCESS",
          message := .str "ok", from_account := .str "A",
          to_account := .str "B", amount := .num (21/2) }) :=
  c8_transfer_response_field_mapping defaultConfig initialState "A" "B"
    (21/2) false 200
    [("transactionId", .str "t1"), ("status", .str "SUCCESS"),
     ("message", .str "ok"), ("fromAccount", .str "A"),
     ("toAccount", .str "B"), ("amount", .num (21/2))]
    (by decide) (by decide) (by norm_num) (by norm_num)

/-- Helper: `authenticate` raises no uncaught exception on a safe
outcome. -/
theorem authenticate_no_fault (cfg : BankingClientConfig) (st : ClientState)
    (user pw : String) (out : HttpOutcome) (hs : safeOutcome out) :
    resOk (authenticate cfg st user pw out).res = true := by
  rcases hs with h | ⟨code, body, rfl, hc⟩
  · subst h; rfl
  · by_cases h : raisesForStatus code = true
    · simp [authenticate, h, resOk]
    · rcases hc with hc | hc | ⟨fs, rfl⟩
      · exact absurd hc h
      · subst hc; simp [authenticate, h, resOk]
      · simp [authenticate, h, resOk]

/-- Helper: `validate_account` raises no uncaught exception on a safe
outcome. -/
theorem validate_account_no_fault (cfg : BankingClientConfig)
    (st : ClientState) (acct : String) (out : HttpOutcome)
    (hs : safeOutcome out) :
    resOk (validate_account cfg st acct out).res = true := by
  rcases hs with h | ⟨code, body, rfl, hc⟩
  · subst h; rfl
  · by_cases h : raisesForStatus code = true
    · simp [validate_account, h, resOk]
    · rcases hc with hc | hc | ⟨fs, rfl⟩
      · exact absurd hc h
      · subst hc; simp [validate_account, h, resOk]
      · simp [validate_account, h, resOk]

/-- Helper: `transfer_funds` raises no uncaught exception on a safe
outcome (or when pre-validation fails). -/
theorem transfer_funds_no_fault (cfg : BankingClientConfig)
    (st : ClientState) (fa ta : String) (amt : ℚ) (ua : Bool)
    (out : HttpOutcome) (hs : safeOutcome out) :
    resOk (transfer_funds cfg st fa ta amt ua out).res = true := by
  by_cases h0 : amt ≤ 0
  · simp [transfer_funds, h0, resOk]
  · by_cases h1 : fa = "" ∨ ta = ""
    · simp [transfer_funds, h0, h1, resOk]
    · rcases hs with h | ⟨code, body, rfl, hc⟩
      · subst h; simp [transfer_funds, h0, h1, resOk]
      · by_cases h : raisesForStatus code = true
        · simp [transfer_funds, h0, h1, h, resOk]
        · rcases hc with hc | hc | ⟨fs, rfl⟩
          · exact absurd hc h
          · subst hc; simp [transfer_funds, h0, h1, h, resOk]
          · simp [transfer_funds, h0, h1, h, resOk]

/-- Helper: `get_accounts` raises no uncaught exception on a safe
outcome, and also on any response whose JSON body is an array. -/
theorem get_accounts_no_fault (cfg : BankingClientConfig) (st : ClientState)
    (ua : Bool) (out : HttpOutcome) (hs : safeOutcome out) :
    resOk (get_accounts cfg st ua out).res = true := by
  rcases hs with h | ⟨code, body, rfl, hc⟩
  · subst h; rfl
  · by_cases h : raisesForStatus code = true
    · simp [get_accounts, h, resOk]
    · rcases hc with hc | hc | ⟨fs, rfl⟩
      · exact absurd hc h
      · subst hc; simp [get_accounts, h, resOk]
      · simp [get_accounts, h, pyLen, resOk]

/-- Helper: `get_account_balance` raises no uncaught exception on a
safe outcome. -/
theorem get_account_balance_no_fault (cfg : BankingClientConfig)
    (st : ClientState) (aid : String) (ua : Bool) (out : HttpOutcome)
    (hs : safeOutcome out) :
    resOk (get_account_balance cfg st aid ua out).res = true := by
  rcases hs with h | ⟨code, body, rfl, hc⟩
  · subst h; rfl
  · by_cases h : raisesForStatus code = true
    · simp [get_account_balance, h, resOk]
    · rcases hc with hc | hc | ⟨fs, rfl⟩
      · exact absurd hc h
      · subst hc; simp [get_account_balance, h, resOk]
      · simp [get_account_balance, h, resOk]

/-- C1 counterexample: `authenticate` on a 200 response whose JSON body
is the array `[]` terminates with an uncaught `AttributeError`
(`data.get` called on a list escapes every `except` clause), refuting
the claim that an arbitrary-JSON 2xx body never ends in an unhandled
fault. -/
theorem c1_counterexample_fault_on_array_body :
    (authenticate defaultConfig initialState "testuser" "password"
        (.response 200 (.json (.arr [])))).res = .error .attributeError := rfl

/-- C1 (amended): for every operation and every completed exchange that
is a pre-validation failure, a transport failure, an error status
(400–599), an unparsable body, or a response whose JSON body is an
object — for `get_accounts` also an array — the operation returns its
typed success value or its no-result/`false` signal, never an unhandled
fault.  (The restriction of 2xx bodies to object shape — array shape
for `get_accounts` — is forced by `c1_counterexample_fault_on_array_body`:
a 2xx body of a different JSON shape escapes as an uncaught
`AttributeError`/`TypeError`.) -/
theorem c1_no_unhandled_fault_amended (cfg : BankingClientConfig)
    (st : ClientState) (user pw acct aid fa ta : String) (amt : ℚ)
    (ua : Bool) (out : HttpOutcome) (hs : safeOutcome out) :
    resOk (authenticate cfg st user pw out).res = true ∧
    resOk (validate_account cfg st acct out).res = true ∧
    resOk (transfer_funds cfg st fa ta amt ua out).res = true ∧
    resOk (get_accounts cfg st ua out).res = true ∧
    resOk (get_account_balance cfg st aid ua out).res = true ∧
    (∀ (code : Nat) (xs : List Json),
      resOk (get_accounts cfg st ua (.response code (.json (.arr xs)))).res = true) ∧
    (∀ out' : HttpOutcome,
      resOk (transfer_funds cfg st fa ta 0 ua out').res = true) := by
  refine ⟨authenticate_no_fault _ _ _ _ _ hs,
    validate_account_no_fault _ _ _ _ hs,
    transfer_funds_no_fault _ _ _ _ _ _ _ hs,
    get_accounts_no_fault _ _ _ _ hs,
    get_account_balance_no_fault _ _ _ _ _ hs, ?_, ?_⟩
  · intro code xs
    by_cases h : raisesForStatus code = true <;>
      simp [get_accounts, h, pyLen, resOk]
  · intro out'
    simp [transfer_funds, resOk]

/-- Witness for C1 (amended) at a concrete safe exchange. -/
theorem c1_no_unhandled_fault_amended_witness :
    resOk (authenticate defaultConfig initialState "testuser" "password"
        (.response 200 (.json (.obj [])))).res = true :=
  (c1_no_unhandled_fault_amended defaultConfig initialState "testuser"
    "password" "ACC1" "ACC2" "ACC3" "ACC4" 5 true
    (.response 200 (.json (.obj [])))
    (Or.inr ⟨200, .json (.obj []), rfl, Or.inr (Or.inr ⟨[], rfl⟩)⟩)).1

/-- Helper: on the exception path — a transport failure or a status in
400–599 turned into a caught `HTTPError` by `raise_for_status` —
`authenticate` leaves the client state unchanged and returns `False`. -/
theorem authenticate_exception_path (cfg : BankingClientConfig)
    (st : ClientState) (user pw : String) (out : HttpOutcome)
    (herr : out = .exn ∨ ∃ c b, out = .response c b ∧ raisesForStatus c = true) :
    (authenticate cfg st user pw out).state = st ∧
    (authenticate cfg st user pw out).res = .ok false := by
  rcases herr with rfl | ⟨c, b, rfl, hc⟩
  · exact ⟨rfl, rfl⟩
  · constructor <;> simp [authenticate, hc]

/-- Helper: on any delivered response that `raise_for_status` lets
through and whose JSON body is an object, `authenticate` assigns the
body's `token` field (`None` when absent) to the stored token and
returns its truthiness. -/
theorem authenticate_assigns_token (cfg : BankingClientConfig)
    (st : ClientState) (user pw : String) (code : Nat)
    (fields : List (String × Json)) (hok : raisesForStatus code = false) :
    (authenticate cfg st user pw (.response code (.json (.obj fields)))).state =
      { st with jwt_token := (jlookup fields "token").getD .null } ∧
    (authenticate cfg st user pw (.response code (.json (.obj fields)))).res =
      .ok (truthy ((jlookup fields "token").getD .null)) := by
  constructor <;> simp [authenticate, hok]

/-- Helper: `validate_account` never changes the client state. -/
theorem validate_account_state_eq (cfg : BankingClientConfig)
    (st : ClientState) (acct : String) (out : HttpOutcome) :
    (validate_account cfg st acct out).state = st := by
  cases out with
  | exn => rfl
  | response code body =>
    by_cases h : raisesForStatus code = true
    · simp [validate_account, h]
    · cases body with
      | invalid => simp [validate_account, h]
      | json j => cases j <;> simp [validate_account, h]

/-- Helper: `transfer_funds` never changes the client state. -/
theorem transfer_funds_state_eq (cfg : BankingClientConfig)
    (st : ClientState) (fa ta : String) (amt : ℚ) (ua : Bool)
    (out : HttpOutcome) :
    (transfer_funds cfg st fa ta amt ua out).state = st := by
  by_cases h0 : amt ≤ 0
  · simp [transfer_funds, h0]
  · by_cases h1 : fa = "" ∨ ta = ""
    · simp [transfer_funds, h0, h1]
    · cases out with
      | exn => simp [transfer_funds, h0, h1]
      | response code body =>
        by_cases h : raisesForStatus code = true
        · simp [transfer_funds, h0, h1, h]
        · cases body with
          | invalid => simp [transfer_funds, h0, h1, h]
          | json j => cases j <;> simp [transfer_funds, h0, h1, h]

/-- Helper: `get_accounts` never changes the client state. -/
theorem get_accounts_state_eq (cfg : BankingClientConfig)
    (st : ClientState) (ua : Bool) (out : HttpOutcome) :
    (get_accounts cfg st ua out).state = st := by
  cases out with
  | exn => rfl
  | response code body =>
    by_cases h : raisesForStatus code = true
    · simp [get_accounts, h]
    · cases body with
      | invalid => simp [get_accounts, h]
      | json j => cases j <;> simp [get_accounts, h, pyLen]

/-- Helper: `get_account_balance` never changes the client state. -/
theorem get_account_balance_state_eq (cfg : BankingClientConfig)
    (st : ClientState) (aid : String) (ua : Bool) (out : HttpOutcome) :
    (get_account_balance cfg st aid ua out).state = st := by
  cases out with
  | exn => rfl
  | response code body =>
    by_cases h : raisesForStatus code = true
    · simp [get_account_balance, h]
    · cases body with
      | invalid => simp [get_account_balance, h]
      | json j => cases j <;> simp [get_account_balance, h]

/-- C2 counterexample: with a previously stored token `"old"`, an
`authenticate` call that receives a 200 response with an empty JSON
object body (no `token` field) returns failure but overwrites the
stored token with `None` — the failing call does not leave the stored
token exactly as it was before the call. -/
theorem c2_counterexample_failed_auth_clobbers_token :
    (authenticate defaultConfig
        { jwt_token := .str "old", sessionClosed := false }
        "testuser" "password" (.response 200 (.json (.obj [])))) =
      { res := .ok false,
        state := { jwt_token := .null, sessionClosed := false },
        sent := [{ method := "POST", url := "http://localhost:8123/authToken",
                   headers := [("Content-Type", "application/json")],
                   body := some (.obj [("username", .str "testuser"),
                                       ("password", .str "password")]) }] } ∧
    Json.null ≠ Json.str "old" :=
  ⟨rfl, fun h => Json.noConfusion h⟩

/-- C2 (amended): the token frame condition that holds on the code:
(1) an `authenticate` call on the exception path (transport failure or
status 400–599) leaves the stored token exactly as it was and returns
`False`; (2) on a delivered non-error response with an object body the
stored token is unconditionally assigned the body's `token` field
(`None` when absent) — so a failing 200-with-no-token call clears a
previously set token rather than preserving it; (3) on a client whose
token is unset, a 200-range response with no `token` field returns
failure and the token remains unset; (4) no other operation ever
changes the client state. -/
theorem c2_token_frame_amended (cfg : BankingClientConfig)
    (st : ClientState) (user pw acct aid fa ta : String) (amt : ℚ)
    (ua : Bool) (out outE : HttpOutcome) (code : Nat)
    (fields : List (String × Json))
    (herr : outE = .exn ∨ ∃ c b, outE = .response c b ∧ raisesForStatus c = true)
    (hok : raisesForStatus code = false)
    (hnotok : jlookup fields "token" = none) :
    (authenticate cfg st user pw outE).state = st ∧
    (authenticate cfg st user pw outE).res = .ok false ∧
    (authenticate cfg st user pw (.response code (.json (.obj fields)))).state =
      { st with jwt_token := (jlookup fields "token").getD .null } ∧
    (authenticate cfg { st with jwt_token := .null } user pw
        (.response code (.json (.obj fields)))).state =
      { st with jwt_token := .null } ∧
    (authenticate cfg { st with jwt_token := .null } user pw
        (.response code (.json (.obj fields)))).res = .ok false ∧
    (validate_account cfg st acct out).state = st ∧
    (transfer_funds cfg st fa ta amt ua out).state = st ∧
    (get_accounts cfg st ua out).state = st ∧
    (get_account_balance cfg st aid ua out).state = st := by
  obtain ⟨hs1, hs2⟩ := authenticate_exception_path cfg st user pw outE herr
  obtain ⟨ha1, _⟩ := authenticate_assigns_token cfg st user pw code fields hok
  obtain ⟨hb1, hb2⟩ := authenticate_assigns_token cfg
    { st with jwt_token := .null } user pw code fields hok
  refine ⟨hs1, hs2, ha1, ?_, ?_,
    validate_account_state_eq cfg st acct out,
    transfer_funds_state_eq cfg st fa ta amt ua out,
    get_accounts_state_eq cfg st ua out,
    get_account_balance_state_eq cfg st aid ua out⟩
  · rw [hb1, hnotok]
    rfl
  · rw [hb2, hnotok]
    rfl

/-- Witness for C2 (amended): a transport failure leaves a concrete
stored token untouched. -/
theorem c2_token_frame_amended_witness :
    (authenticate defaultConfig
        { jwt_token := .str "old", sessionClosed := false }
        "u" "p" .exn).state =
      { jwt_token := .str "old", sessionClosed := false } :=
  (c2_token_frame_amended defaultConfig
    { jwt_token := .str "old", sessionClosed := false } "u" "p" "a" "b" "c"
    "d" 5 true .exn .exn 200 [] (Or.inl rfl) rfl rfl).1

/-- C10 counterexample: a 300 response — non-2xx, yet not on the
exception path, since `raise_for_status` raises only for 400–599 —
with body `{"token": "t"}` makes `authenticate` return `True` and
overwrite the stored token, refuting "every non-2xx response leaves the
token unchanged and returns false". -/
theorem c10_counterexample_300_response_sets_token :
    (authenticate defaultConfig initialState "testuser" "password"
        (.response 300 (.json (.obj [("token", .str "t")])))) =
      { res := .ok true,
        state := { jwt_token := .str "t", sessionClosed := false },
        sent := [{ method := "POST", url := "http://localhost:8123/authToken",
                   headers := [("Content-Type", "application/json")],
                   body := some (.obj [("username", .str "testuser"),
                                       ("password", .str "password")]) }] } := rfl

/-- C10 (amended): an `authenticate` call that ends on the exception
path — a transport failure, or a 4xx/5xx response (the statuses for
which `raise_for_status` raises) — leaves the stored token exactly as
it was and returns `False`: the token assignment is only reached when
`raise_for_status` does not raise. -/
theorem c10_auth_exception_path_amended (cfg : BankingClientConfig)
    (st : ClientState) (user pw : String) (out : HttpOutcome)
    (herr : out = .exn ∨ ∃ c b, out = .response c b ∧ raisesForStatus c = true) :
    (authenticate cfg st user pw out).state = st ∧
    (authenticate cfg st user pw out).res = .ok false :=
  authenticate_exception_path cfg st user pw out herr

/-- Witness for C10 (amended): a 503 response leaves a concrete stored
token untouched and returns `False`. -/
theorem c10_auth_exception_path_amended_witness :
    (authenticate defaultConfig
        { jwt_token := .str "keep", sessionClosed := false }
        "u" "p" (.response 503 (.json (.obj [("token", .str "x")])))).state =
      { jwt_token := .str "keep", sessionClosed := false } :=
  (c10_auth_exception_path_amended defaultConfig
    { jwt_token := .str "keep", sessionClosed := false } "u" "p"
    (.response 503 (.json (.obj [("token", .str "x")])))
    (Or.inr ⟨503, .json (.obj [("token", .str "x")]), rfl, rfl⟩)).1

/-- Helper: the value `authenticate` returns does not depend on the
prior client state. -/
theorem authenticate_res_state_irrel (cfg : BankingClientConfig)
    (st st' : ClientState) (user pw : String) (out : HttpOutcome) :
    (authenticate cfg st user pw out).res =
      (authenticate cfg st' user pw out).res := by
  cases out with
  | exn => rfl
  | response code body =>
    by_cases h : raisesForStatus code = true
    · simp [authenticate, h]
    · cases body with
      | invalid => simp [authenticate, h]
      | json j => cases j <;> simp [authenticate, h]

/-- Helper: `authenticate` always issues exactly one POST with the
fixed `Content-Type` header, independent of the client state. -/
theorem authenticate_sent (cfg : BankingClientConfig) (st : ClientState)
    (user pw : String) (out : HttpOutcome) :
    (authenticate cfg st user pw out).sent =
      [{ method := "POST", url := cfg.base_url ++ "/authToken",
         headers := [("Content-Type", "application/json")],
         body := some (.obj [("username", .str user),
                             ("password", .str pw)]) }] := by
  cases out with
  | exn => rfl
  | response code body =>
    by_cases h : raisesForStatus code = true
    · simp [authenticate, h]
    · cases body with
      | invalid => simp [authenticate, h]
      | json j => cases j <;> simp [authenticate, h]

/-- C3 counterexample: after `close()`, a `get_accounts` call does not
fail with any ClientClosed signal — the code has no closed state: the
call sends its network request as usual (nonempty request list) and
succeeds.  (The true half of the claim, idempotence of `close`, is
`c3_close_amended`'s first conjunct.) -/
theorem c3_counterexample_operations_proceed_after_close :
    get_accounts defaultConfig (close initialState) false
        (.response 200 (.json (.arr []))) =
      { res := .ok (some (.arr [])),
        state := { jwt_token := .null, sessionClosed := true },
        sent := [{ method := "GET", url := "http://localhost:8123/accounts",
                   headers := [], body := none }] } := rfl

/-- C3 (amended): `close()` is idempotent (calling it a second time
does not fail and changes nothing), but there is no terminal closed
state: every operation attempted after `close()` behaves exactly as
before — same returned value and same requests sent, so network calls
are still attempted and no ClientClosed failure exists. -/
theorem c3_close_amended (cfg : BankingClientConfig) (st : ClientState)
    (user pw acct aid fa ta : String) (amt : ℚ) (ua : Bool)
    (out : HttpOutcome) :
    close (close st) = close st ∧
    (authenticate cfg (close st) user pw out).res =
      (authenticate cfg st user pw out).res ∧
    (authenticate cfg (close st) user pw out).sent =
      (authenticate cfg st user pw out).sent ∧
    (validate_account cfg (close st) acct out).res =
      (validate_account cfg st acct out).res ∧
    (validate_account cfg (close st) acct out).sent =
      (validate_account cfg st acct out).sent ∧
    (transfer_funds cfg (close st) fa ta amt ua out).res =
      (transfer_funds cfg st fa ta amt ua out).res ∧
    (transfer_funds cfg (close st) fa ta amt ua out).sent =
      (transfer_funds cfg st fa ta amt ua out).sent ∧
    (get_accounts cfg (close st) ua out).res =
      (get_accounts cfg st ua out).res ∧
    (get_accounts cfg (close st) ua out).sent =
      (get_accounts cfg st ua out).sent ∧
    (get_account_balance cfg (close st) aid ua out).res =
      (get_account_balance cfg st aid ua out).res ∧
    (get_account_balance cfg (close st) aid ua out).sent =
      (get_account_balance cfg st aid ua out).sent := by
  have hh : get_headers (close st) = get_headers st := rfl
  refine ⟨rfl,
    authenticate_res_state_irrel cfg (close st) st user pw out, ?_,
    validate_account_res_state_irrel cfg (close st) st acct out, ?_,
    transfer_funds_res_state_irrel cfg (close st) st fa ta amt ua out,
    transfer_funds_sent_congr cfg (close st) st fa ta amt ua out hh,
    get_accounts_res_state_irrel cfg (close st) st ua out, ?_,
    get_account_balance_res_state_irrel cfg (close st) st aid ua out, ?_⟩
  · rw [authenticate_sent, authenticate_sent]
  · rw [validate_account_sent, validate_account_sent, hh]
  · rw [get_accounts_sent, get_accounts_sent, hh]
  · rw [get_account_balance_sent, get_account_balance_sent, hh]

/-- Helper: the retry loop makes at least one attempt beyond the index
it starts at. -/
theorem retryExec_attempts_ge (m : String) (script : Nat → AttemptOutcome) :
    ∀ (budget idx : Nat), idx + 1 ≤ (retryExec m script budget idx).2 := by
  intro budget
  induction budget with
  | zero =>
    intro idx
    rw [retryExec]
    by_cases hr : retriable m (script idx) = true
    · rw [if_pos hr]
    · rw [if_neg hr]
  | succ b ih =>
    intro idx
    rw [retryExec]
    by_cases hr : retriable m (script idx) = true
    · rw [if_pos hr]
      exact le_trans (by omega) (ih (idx + 1))
    · rw [if_neg hr]

/-- C5: the transport's retry policy.  A request is retried exactly
when its method is GET or POST and the attempt ended in a network
failure or a status in {429, 500, 502, 503, 504}, with at most
`max_retries` retries: (1) `max_retries = 2` against a constant 500
makes exactly 3 attempts, ends with no result, and the operation then
returns its no-result value; (2) `max_retries = 3` against the sequence
503, 503, 200 succeeds after exactly 3 attempts and the operation maps
the delivered 200 to its success value; (3) a status delivered to a
method outside {GET, POST} is never retried (one attempt); (4) a
network failure with such a method fails after one attempt; (5) a
status outside the forcelist is delivered after one attempt; (6) a
retriable first outcome with a positive retry budget always causes a
second attempt. -/
theorem c5_retry_policy :
    (runWithRetry 2 "POST" (fun _ => .status 500) = (.noResult, 3) ∧
      (transfer_funds defaultConfig initialState "ACC1000" "ACC1001" 100
          false .exn).res = .ok none) ∧
    (runWithRetry 3 "GET"
        (fun n => if n < 2 then .status 503 else .status 200) =
        (.response 200, 3) ∧
      (get_accounts defaultConfig initialState false
          (.response 200 (.json (.arr [])))).res = .ok (some (.arr []))) ∧
    (∀ (mr : Nat) (m : String) (script : Nat → AttemptOutcome) (c : Nat),
      script 0 = .status c → m ∉ allowed_methods →
      runWithRetry mr m script = (.response c, 1)) ∧
    (∀ (mr : Nat) (m : String) (script : Nat → AttemptOutcome),
      script 0 = .netFail → m ∉ allowed_methods →
      runWithRetry mr m script = (.noResult, 1)) ∧
    (∀ (mr : Nat) (m : String) (script : Nat → AttemptOutcome) (c : Nat),
      script 0 = .status c → c ∉ status_forcelist →
      runWithRetry mr m script = (.response c, 1)) ∧
    (∀ (mr : Nat) (m : String) (script : Nat → AttemptOutcome),
      retriable m (script 0) = true → 0 < mr →
      2 ≤ (runWithRetry mr m script).2) := by
  refine ⟨⟨rfl, rfl⟩, ⟨rfl, rfl⟩, ?_, ?_, ?_, ?_⟩
  · intro mr m script c h hm
    have hr' : ¬ (retriable m (script 0) = true) := by
      rw [h]; simp [retriable, hm]
    cases mr with
    | zero => rw [runWithRetry, retryExec, if_neg hr', h]; rfl
    | succ b => rw [runWithRetry, retryExec, if_neg hr', h]; rfl
  · intro mr m script h hm
    have hr' : ¬ (retriable m (script 0) = true) := by
      rw [h]; simp [retriable, hm]
    cases mr with
    | zero => rw [runWithRetry, retryExec, if_neg hr', h]; rfl
    | succ b => rw [runWithRetry, retryExec, if_neg hr', h]; rfl
  · intro mr m script c h hc
    have hr' : ¬ (retriable m (script 0) = true) := by
      rw [h]; simp [retriable, hc]
    cases mr with
    | zero => rw [runWithRetry, retryExec, if_neg hr', h]; rfl
    | succ b => rw [runWithRetry, retryExec, if_neg hr', h]; rfl
  · intro mr m script hr hmr
    cases mr with
    | zero => omega
    | succ b =>
      rw [runWithRetry, retryExec, if_pos hr]
      exact retryExec_attempts_ge m script b (0 + 1)

/-- Witness for C5's quantified conjuncts: a 500 response to a PUT
request is delivered after exactly one attempt (no retry for a method
outside {GET, POST}). -/
theorem c5_retry_policy_witness :
    runWithRetry 5 "PUT" (fun _ => .status 500) = (.response 500, 1) :=
  c5_retry_policy.2.2.1 5 "PUT" (fun _ => .status 500) 500 rfl (by decide)

end Banking
